import Mathlib

/-!
Verification of the cfb_analysis dataset-loader layer (src/loaders.py over
src/api.py).  The loaders are shallowly embedded: pandas DataFrames become an
explicit column list plus rows of (column, cell) pairs; the network (cfbd_get)
becomes an oracle parameter returning either a decoded JSON body or an HTTP
error; the on-disk CSV cache becomes an explicit file-name-to-table store
threaded through every call, together with a count of network requests made.
CSV serialisation is modelled as the identity on tables (to_csv followed by
read_csv yields the table back); numeric cells are modelled as integers, and
`Value.null` models a pandas missing value (NaN).
-/

set_option maxHeartbeats 1000000

namespace Cfb

/-- A cell value: pandas cells here are strings, numbers, or missing (NaN). -/
inductive Value where
  | str : String → Value
  | int : Int → Value
  | null : Value
deriving DecidableEq

/-- A table row, as the flat association list of column name to cell value.
JSON objects returned by the API (already dot-flattened; no claim depends on
the flattening of nested keys) use the same representation. -/
abbrev Row := List (String × Value)

/-- The column names a row actually carries. -/
def rowCols (r : Row) : List String := r.map Prod.fst

/-- Append a column name if not already present (pandas first-seen column order). -/
def insertCol (acc : List String) (c : String) : List String :=
  if c ∈ acc then acc else acc ++ [c]

/-- Ordered union of the column names of a list of rows. -/
def unionCols (rows : List Row) : List String :=
  rows.foldl (fun acc r => (rowCols r).foldl insertCol acc) []

/-- A pandas DataFrame: the column list plus the rows; a row stores only the
cells it actually has, so a missing lookup models a NaN cell. -/
structure DataFrame where
  cols : List String
  rows : List Row
deriving DecidableEq

/-- pd.DataFrame(): no rows and no columns. -/
def DataFrame.empty : DataFrame := ⟨[], []⟩

/-- df.empty: true iff some axis has length zero. -/
def DataFrame.isEmpty (df : DataFrame) : Bool := df.rows.isEmpty || df.cols.isEmpty

/-- pd.json_normalize on a JSON array of (flattened) objects: one row per
array element, columns in first-seen order. -/
def json_normalize (data : List Row) : DataFrame := ⟨unionCols data, data⟩

/-- Series item assignment row[k] = v: overwrite in place when the key exists,
otherwise append the new key at the end. -/
def setCell (r : Row) (k : String) (v : Value) : Row :=
  if (r.lookup k).isSome then r.map (fun p => if p.1 = k then (k, v) else p)
  else r ++ [(k, v)]

/-- Column assignment df[k] = v, the scalar broadcast to every row. -/
def DataFrame.setCol (df : DataFrame) (k : String) (v : Value) : DataFrame :=
  ⟨if k ∈ df.cols then df.cols else df.cols ++ [k],
   df.rows.map (fun r => setCell r k v)⟩

/-- pd.concat(dfs, ignore_index=True): outer union of the columns, all rows in
order of appearance. -/
def pd_concat (dfs : List DataFrame) : DataFrame :=
  ⟨dfs.foldl (fun acc df => df.cols.foldl insertCol acc) [],
   (dfs.map DataFrame.rows).flatten⟩

/-- The API client cfbd_get from src/api.py, abstracted as an oracle: a path and
its query parameters yield either the decoded JSON body (a list of flattened
objects) or the exception raised by resp.raise_for_status() on a non-2xx
status.  Every loader is parameterised by this oracle. -/
abbrev Api := String → List (String × Value) → Except String (List Row)

/-- The raw-data directory: cache file name to cached table. -/
abbrev CacheState := List (String × DataFrame)

/-- df.to_csv(csv_path, index=False): overwrite the file if present, else
create it. -/
def writeCsv (files : CacheState) (path : String) (df : DataFrame) : CacheState :=
  if (files.lookup path).isSome then
    files.map (fun p => if p.1 = path then (path, df) else p)
  else files ++ [(path, df)]

/-- Outcome of a single-year fetch: the returned table (or the propagated API
error), the cache directory afterwards, and the number of network requests. -/
structure FetchOut where
  result : Except String DataFrame
  state : CacheState
  netCalls : Nat

/-- The common body of every single-year loader in loaders.py: when use_cache
is set and the cache file exists, read it back with no network access;
otherwise call the API, json_normalize the body, persist the CSV and return
the fresh table.  An API failure propagates before anything is written. -/
def fetch_or_cache (path : String) (params : List (String × Value)) (csv_path : String)
    (api : Api) (use_cache : Bool) (st : CacheState) : FetchOut :=
  if use_cache && (st.lookup csv_path).isSome then
    ⟨.ok ((st.lookup csv_path).getD DataFrame.empty), st, 0⟩
  else
    match api path params with
    | .error e => ⟨.error e, st, 1⟩
    | .ok data =>
      let df := json_normalize data
      ⟨.ok df, writeCsv st csv_path df, 1⟩

/-- loaders.load_transfer_portal. -/
def load_transfer_portal (api : Api) (year : Int) (use_cache : Bool) (st : CacheState) : FetchOut :=
  fetch_or_cache "/player/portal" [("year", .int year)]
    ("transfer_portal_" ++ toString year ++ ".csv") api use_cache st

/-- loaders.load_team_talent (year-independent). -/
def load_team_talent (api : Api) (use_cache : Bool) (st : CacheState) : FetchOut :=
  fetch_or_cache "/talent" [] "team_talent.csv" api use_cache st

/-- loaders.load_team_season_stats. -/
def load_team_season_stats (api : Api) (year : Int) (use_cache : Bool) (st : CacheState) : FetchOut :=
  fetch_or_cache "/stats/season/team" [("year", .int year)]
    ("team_season_stats_" ++ toString year ++ ".csv") api use_cache st

/-- loaders.load_player_season_stats. -/
def load_player_season_stats (api : Api) (year : Int) (use_cache : Bool) (st : CacheState) : FetchOut :=
  fetch_or_cache "/stats/player/season" [("year", .int year)]
    ("player_season_stats_" ++ toString year ++ ".csv") api use_cache st

/-- loaders.load_sp_plus_ratings. -/
def load_sp_plus_ratings (api : Api) (year : Int) (use_cache : Bool) (st : CacheState) : FetchOut :=
  fetch_or_cache "/ratings/sp" [("year", .int year)]
    ("sp_plus_" ++ toString year ++ ".csv") api use_cache st

/-- loaders.load_team_records. -/
def load_team_records (api : Api) (year : Int) (use_cache : Bool) (st : CacheState) : FetchOut :=
  fetch_or_cache "/records" [("year", .int year)]
    ("team_records_" ++ toString year ++ ".csv") api use_cache st

/-- Python range(start, end+1) over the (inclusive) year bounds. -/
def pyRange (start_year end_year : Int) : List Int :=
  (List.range (end_year + 1 - start_year).toNat).map (fun i => start_year + i)

/-- Outcome of the accumulation loop of a multi-year loader: the list `dfs`
built by the loop (or the propagated error), the cache afterwards, the number
of network requests, and the years warned about (the empty ones, in order). -/
structure MultiOut where
  result : Except String (List DataFrame)
  state : CacheState
  netCalls : Nat
  warnings : List Int

/-- The loop shared by the three multi-year loaders: for each year call the
single-year loader; on an empty table print a warning and skip the year;
otherwise apply the loader's year-tagging statement `tag` and append the
table to `dfs`.  An error from the single-year loader aborts the loop. -/
def multi_go (single : Int → Bool → CacheState → FetchOut) (tag : DataFrame → Int → DataFrame)
    (uc : Bool) : List Int → CacheState → MultiOut
  | [], st => ⟨.ok [], st, 0, []⟩
  | y :: ys, st =>
    match (single y uc st).result with
    | .error e => ⟨.error e, (single y uc st).state, (single y uc st).netCalls, []⟩
    | .ok df =>
      let r := multi_go single tag uc ys (single y uc st).state
      if df.isEmpty then
        ⟨r.result, r.state, (single y uc st).netCalls + r.netCalls, y :: r.warnings⟩
      else
        ⟨r.result.map (fun dfs => tag df y :: dfs), r.state,
         (single y uc st).netCalls + r.netCalls, r.warnings⟩

/-- Outcome of a whole multi-year loader. -/
structure LoadOut where
  result : Except String DataFrame
  state : CacheState
  netCalls : Nat
  warnings : List Int

/-- The common epilogue: `if not dfs: return pd.DataFrame()` else
`pd.concat(dfs, ignore_index=True)`. -/
def finish_multi (m : MultiOut) : LoadOut :=
  ⟨m.result.map (fun dfs => if dfs.isEmpty then DataFrame.empty else pd_concat dfs),
   m.state, m.netCalls, m.warnings⟩

/-- load_transfer_portal_multi tags unconditionally: df["year"] = year. -/
def transfer_tag (df : DataFrame) (year : Int) : DataFrame := df.setCol "year" (.int year)

/-- load_player_season_stats_multi tags only when the column is absent:
if "year" not in df.columns: df["year"] = year. -/
def player_stats_tag (df : DataFrame) (year : Int) : DataFrame :=
  if "year" ∈ df.cols then df else df.setCol "year" (.int year)

/-- load_sp_plus_multi has no year-tagging statement at all. -/
def sp_tag (df : DataFrame) (_year : Int) : DataFrame := df

/-- loaders.load_transfer_portal_multi. -/
def load_transfer_portal_multi (api : Api) (start_year end_year : Int) (use_cache : Bool)
    (st : CacheState) : LoadOut :=
  finish_multi (multi_go (load_transfer_portal api) transfer_tag use_cache
    (pyRange start_year end_year) st)

/-- loaders.load_player_season_stats_multi. -/
def load_player_season_stats_multi (api : Api) (start_year end_year : Int) (use_cache : Bool)
    (st : CacheState) : LoadOut :=
  finish_multi (multi_go (load_player_season_stats api) player_stats_tag use_cache
    (pyRange start_year end_year) st)

/-- loaders.load_sp_plus_multi. -/
def load_sp_plus_multi (api : Api) (start_year end_year : Int) (use_cache : Bool)
    (st : CacheState) : LoadOut :=
  finish_multi (multi_go (load_sp_plus_ratings api) sp_tag use_cache
    (pyRange start_year end_year) st)

/-- Python str() applied to a cell, as used by the f-string building the search
name and by str(row.origin): a pandas missing value (float NaN) prints as
"nan". -/
def pyStr : Value → String
  | .str s => s
  | .int n => toString n
  | .null => "nan"

/-- Python str.lower(), modelled characterwise over the basic-latin range (the
strings involved are ASCII team names). -/
def pyLower (s : String) : String := ⟨s.data.map Char.toLower⟩

/-- One candidate row of candidates[candidates["team"].str.lower() == origin]:
the .str accessor yields NaN (never equal) on a missing or non-string team. -/
def teamLowerEq (c : Row) (origin : String) : Bool :=
  match c.lookup "team" with
  | some (.str t) => pyLower t == origin
  | _ => false

/-- row["playerId"] = candidates.iloc[0]["id"]; results.append(row): label
indexing raises KeyError when "id" is not among the columns, and yields NaN
when the first row simply lacks the cell. -/
def first_fallback (candidates : DataFrame) (row : Row) : Except String Row :=
  match candidates.rows with
  | [] => .error "IndexError: iloc 0"
  | c :: _ =>
    if "id" ∈ candidates.cols then .ok (setCell row "playerId" ((c.lookup "id").getD .null))
    else .error "KeyError: id"

/-- The body of the per-row loop of attach_player_ids, acting on the Series
copy that iterrows produced for the row.  Attribute access on a missing column
raises; so does column indexing on the candidates frame. -/
def attach_row (api : Api) (row : Row) : Except String Row :=
  match row.lookup "firstName" with
  | none => .error "AttributeError: firstName"
  | some fv =>
    match row.lookup "lastName" with
    | none => .error "AttributeError: lastName"
    | some lv =>
      match api "/player/search" [("search", .str (pyStr fv ++ " " ++ pyStr lv))] with
      | .error e => .error e
      | .ok search =>
        if search.isEmpty then .ok (setCell row "playerId" .null)
        else
          let candidates := json_normalize search
          match row.lookup "origin" with
          | none => .error "AttributeError: origin"
          | some ov =>
            let origin := pyLower (pyStr ov)
            if origin ≠ "nan" then
              if "team" ∈ candidates.cols then
                match candidates.rows.filter (fun c => teamLowerEq c origin) with
                | c :: _ =>
                  if "id" ∈ candidates.cols then
                    .ok (setCell row "playerId" ((c.lookup "id").getD .null))
                  else .error "KeyError: id"
                | [] => first_fallback candidates row
              else .error "KeyError: team"
            else first_fallback candidates row

/-- The Series that iterrows yields for a source row: a fresh copy indexed by
the frame's columns, with NaN for cells the row lacks. -/
def iterRow (cols : List String) (r : Row) : Row :=
  cols.map (fun c => (c, (r.lookup c).getD .null))

/-- The for-loop of attach_player_ids over the remaining rows.  The source
frame is threaded through unchanged as the second component: iterrows hands the
body a copy of each row, and the body writes only to that copy and to
`results`, never into df_transfers itself. -/
def attach_loop (api : Api) (cols : List String) :
    List Row → DataFrame → Except String (List Row) × DataFrame
  | [], frame => (.ok [], frame)
  | r :: rs, frame =>
    match attach_row api (iterRow cols r) with
    | .error e => (.error e, frame)
    | .ok r1 =>
      match attach_loop api cols rs frame with
      | (.error e, fr) => (.error e, fr)
      | (.ok rs1, fr) => (.ok (r1 :: rs1), fr)

/-- pd.DataFrame(results): columns are the union of the appended Series'
indices in first-seen order. -/
def pd_DataFrame_ofRows (rows : List Row) : DataFrame := ⟨unionCols rows, rows⟩

/-- loaders.attach_player_ids, with the final state of the input frame kept as
the second component (it is what df_transfers holds after the call). -/
def attach_player_ids_run (api : Api) (df_transfers : DataFrame) :
    Except String DataFrame × DataFrame :=
  match attach_loop api df_transfers.cols df_transfers.rows df_transfers with
  | (.error e, fr) => (.error e, fr)
  | (.ok results, fr) => (.ok (pd_DataFrame_ofRows results), fr)

/-- loaders.attach_player_ids: the returned table. -/
def attach_player_ids (api : Api) (df_transfers : DataFrame) : Except String DataFrame :=
  (attach_player_ids_run api df_transfers).1

/-- The table a multi-year loader assembles when the single-year fetch of year
y deterministically returns f y: concatenate, in ascending year order, the
tagged tables of the years whose fetch was non-empty; an all-empty range gives
pd.DataFrame(). -/
def mk_aggregate (years : List Int) (f : Int → DataFrame) (tag : DataFrame → Int → DataFrame) :
    DataFrame :=
  if (years.filterMap (fun y => if (f y).isEmpty then none else some (tag (f y) y))).isEmpty then
    DataFrame.empty
  else pd_concat (years.filterMap (fun y => if (f y).isEmpty then none else some (tag (f y) y)))

/-- candidates.iloc[0]["id"] as a value (the frames it is applied to are
non-empty and carry an "id" column wherever the code reaches it). -/
def idOfFirst (candidates : DataFrame) : Value :=
  match candidates.rows with
  | c :: _ => (c.lookup "id").getD .null
  | [] => .null

/-- The identifier attach_player_ids ends up storing for one row, given the
search response and str(row.origin).lower(): empty search gives null; a
lowered origin other than "nan" takes the first case-insensitive team match,
falling back to the first candidate; a lowered origin equal to "nan" (a true
NaN, or any string spelling of it) takes the first candidate. -/
def pickValue (search : List Row) (originLower : String) : Value :=
  if search.isEmpty then .null
  else
    let candidates := json_normalize search
    if originLower ≠ "nan" then
      match candidates.rows.filter (fun c => teamLowerEq c originLower) with
      | c :: _ => (c.lookup "id").getD .null
      | [] => idOfFirst candidates
    else idOfFirst candidates

/-- The search string f"{row.firstName} {row.lastName}" built from a row. -/
def nameFromRow (row : Row) : String :=
  pyStr ((row.lookup "firstName").getD .null) ++ " " ++ pyStr ((row.lookup "lastName").getD .null)

/-- str(row.origin).lower() built from a row. -/
def originLowerFromRow (row : Row) : String :=
  pyLower (pyStr ((row.lookup "origin").getD .null))

/-- The identifier stored for source row r of a frame with columns cols. -/
def pickRow (api : Api) (cols : List String) (r : Row) : Value :=
  match api "/player/search" [("search", .str (nameFromRow (iterRow cols r)))] with
  | .ok s => pickValue s (originLowerFromRow (iterRow cols r))
  | .error _ => .null

/-- The table attach_player_ids returns when every row is processable: each
source row, in order, extended with the resolved playerId. -/
def attachResult (api : Api) (df : DataFrame) : DataFrame :=
  pd_DataFrame_ofRows (df.rows.map (fun r =>
    setCell (iterRow df.cols r) "playerId" (pickRow api df.cols r)))

/-- Conditions under which the loop body completes for source row r of a frame
with columns cols: the name fields exist, the search call succeeds, and — when
it found candidates — the origin field exists and the candidate frame has the
columns the code indexes. -/
def RowOk (api : Api) (cols : List String) (r : Row) : Prop :=
  ∃ fv lv s, (iterRow cols r).lookup "firstName" = some fv
    ∧ (iterRow cols r).lookup "lastName" = some lv
    ∧ api "/player/search" [("search", .str (pyStr fv ++ " " ++ pyStr lv))] = .ok s
    ∧ (¬s.isEmpty → ∃ ov, (iterRow cols r).lookup "origin" = some ov
        ∧ "id" ∈ (json_normalize s).cols
        ∧ (pyLower (pyStr ov) ≠ "nan" → "team" ∈ (json_normalize s).cols))

/-- The selection rule exactly as the claim states it, for comparison with the
code: a non-null origin selects the first candidate whose team matches origin
case-insensitively, falling back to the first candidate overall; a null origin
selects the first candidate overall. -/
def claim_pick (origin : Option String) (cands : List Row) : Value :=
  match origin with
  | some o =>
    match cands.filter (fun c =>
        match c.lookup "team" with
        | some (.str t) => pyLower t == pyLower o
        | _ => false) with
    | c :: _ => (c.lookup "id").getD .null
    | [] => (cands.head?.map (fun c => (c.lookup "id").getD .null)).getD .null
  | none => (cands.head?.map (fun c => (c.lookup "id").getD .null)).getD .null

/-! Concrete inputs used by the counterexamples and the witnesses. -/

/-- A server whose SP+ body has no "year" field and whose portal body carries a
"year" field different from the request year. -/
def c1xapi : Api := fun path _ =>
  if path = "/ratings/sp" then .ok [[("team", Value.str "A")]]
  else .ok [[("year", Value.int 1999), ("player", Value.str "B")]]

/-- A server giving each dataset its own fixed non-empty body. -/
def c1wapi : Api := fun path _ =>
  if path = "/player/portal" then .ok [[("p", Value.str "a")]]
  else if path = "/stats/player/season" then .ok [[("q", Value.str "b")]]
  else .ok [[("team", Value.str "c")]]

def c1wft : Int → DataFrame := fun _ => json_normalize [[("p", Value.str "a")]]

def c1wfp : Int → DataFrame := fun _ => json_normalize [[("q", Value.str "b")]]

def c1wfs : Int → DataFrame := fun _ => json_normalize [[("team", Value.str "c")]]

def c2wt : DataFrame := json_normalize [[("a", Value.int 1)]]

def c2wst : CacheState := [("f.csv", c2wt)]

def c2wapi : Api := fun _ _ => .ok [[("a", Value.int 2)]]

/-- A server that is empty exactly in year 2020. -/
def c4wapi : Api := fun _ params =>
  if params.lookup "year" = some (Value.int 2020) then .ok []
  else .ok [[("a", Value.int 1)]]

def c4wf : Int → DataFrame := fun y =>
  if y = 2020 then json_normalize [] else json_normalize [[("a", Value.int 1)]]

/-- A server answering every query with an empty array. -/
def c5wapi : Api := fun _ _ => .ok []

def c5wf : Int → DataFrame := fun _ => json_normalize []

/-- A server failing every request. -/
def c6wapi : Api := fun _ _ => .error "HTTPError: 500"

def c7wapi : Api := fun _ _ => .ok [[("b", Value.int 7)]]

def c7wst : CacheState := [("g.csv", json_normalize [[("b", Value.int 6)]])]

/-- The search response for the C3 counterexample: the first candidate's team
does not match, the second is the literal string "NaN". -/
def c3xcands : List Row :=
  [[("team", Value.str "Other U"), ("id", Value.int 202)],
   [("team", Value.str "NaN"), ("id", Value.int 101)]]

def c3xapi : Api := fun _ _ => .ok c3xcands

/-- One transfer row whose origin is the (non-null) string "NaN". -/
def c3xdf : DataFrame :=
  ⟨["firstName", "lastName", "origin"],
   [[("firstName", Value.str "Jane"), ("lastName", Value.str "Doe"),
     ("origin", Value.str "NaN")]]⟩

/-- The spec's origin-matching scenario, with the matching candidate second so
the match is not simply the first candidate. -/
def c3wcands : List Row :=
  [[("team", Value.str "Other U"), ("id", Value.int 202)],
   [("team", Value.str "Acme State"), ("id", Value.int 101)]]

def c3wapi : Api := fun _ _ => .ok c3wcands

def c3wdf : DataFrame :=
  ⟨["firstName", "lastName", "origin"],
   [[("firstName", Value.str "Jane"), ("lastName", Value.str "Doe"),
     ("origin", Value.str "Acme State")]]⟩

/-- A search endpoint that finds nobody. -/
def c8wapi : Api := fun _ _ => .ok []

def c8wdf : DataFrame :=
  ⟨["firstName", "lastName", "origin"],
   [[("firstName", Value.str "Jane"), ("lastName", Value.str "Doe"),
     ("origin", Value.null)]]⟩

/-! Association-list and cache lemmas. -/

theorem lookup_map_overwrite {β : Type} (l : List (String × β)) (k : String) (v : β)
    (h : (l.lookup k).isSome = true) :
    (l.map (fun p => if p.1 = k then (k, v) else p)).lookup k = some v := by
  induction l with
  | nil => simp [List.lookup] at h
  | cons p rest ih =>
    obtain ⟨k1, v1⟩ := p
    by_cases hk : k1 = k
    · subst hk; simp [List.lookup_cons]
    · have hb : (k == k1) = false := beq_false_of_ne (Ne.symm hk)
      simp only [List.map_cons, if_neg hk, List.lookup_cons, hb] at h ⊢
      exact ih h

theorem lookup_append_single {β : Type} (l : List (String × β)) (k : String) (v : β)
    (h : l.lookup k = none) :
    (l ++ [(k, v)]).lookup k = some v := by
  rw [List.lookup_append, h]
  simp

/-- Writing a cache file makes its subsequent read return exactly the written
table. -/
theorem writeCsv_lookup (files : CacheState) (path : String) (df : DataFrame) :
    (writeCsv files path df).lookup path = some df := by
  unfold writeCsv
  split
  · exact lookup_map_overwrite files path df (by assumption)
  · rename_i h
    exact lookup_append_single files path df (Option.not_isSome_iff_eq_none.mp h)

/-- Setting a cell makes the key read back as the written value. -/
theorem setCell_lookup_self (r : Row) (k : String) (v : Value) :
    (setCell r k v).lookup k = some v := by
  unfold setCell
  split
  · exact lookup_map_overwrite r k v (by assumption)
  · rename_i h
    exact lookup_append_single r k v (Option.not_isSome_iff_eq_none.mp h)

/-- C2: with caching enabled, a fetch whose cache file exists returns the
cached table verbatim with zero network requests and an unchanged cache; and
the same fetch issued twice returns identical tables, the second call making
zero network requests.  Every single-year loader is an instance of
fetch_or_cache, so this covers every dataset and year. -/
theorem c2_cache_idempotence (path : String) (params : List (String × Value))
    (csv : String) (api : Api) (st : CacheState) :
    (∀ t, st.lookup csv = some t →
      fetch_or_cache path params csv api true st = ⟨.ok t, st, 0⟩)
    ∧ (∀ data, api path params = .ok data →
      (fetch_or_cache path params csv api true
          ((fetch_or_cache path params csv api true st).state)).result
        = (fetch_or_cache path params csv api true st).result
      ∧ (fetch_or_cache path params csv api true
          ((fetch_or_cache path params csv api true st).state)).netCalls = 0) := by
  constructor
  · intro t ht
    simp [fetch_or_cache, ht]
  · intro data hok
    cases hcase : st.lookup csv with
    | some t => simp [fetch_or_cache, hcase]
    | none =>
      have h1 : fetch_or_cache path params csv api true st =
          ⟨.ok (json_normalize data), writeCsv st csv (json_normalize data), 1⟩ := by
        simp [fetch_or_cache, hcase, hok]
      rw [h1]
      have h2 := writeCsv_lookup st csv (json_normalize data)
      simp [fetch_or_cache, h2]

/-- C2 witness: a concrete cached table is returned verbatim on a hit. -/
theorem c2_witness :
    fetch_or_cache "/p" [] "f.csv" c2wapi true c2wst = ⟨.ok c2wt, c2wst, 0⟩ :=
  (c2_cache_idempotence "/p" [] "f.csv" c2wapi c2wst).1 c2wt rfl

/-- C6: when the cache is not consulted (disabled or missing file) and the API
call fails, every single-year fetcher propagates the error unchanged and the
cache directory is exactly as before — no partial cache write. -/
theorem c6_error_propagation (path : String) (params : List (String × Value))
    (csv : String) (api : Api) (uc : Bool) (st : CacheState) (e : String)
    (hmiss : uc = false ∨ st.lookup csv = none)
    (herr : api path params = .error e) :
    (fetch_or_cache path params csv api uc st).result = .error e
    ∧ (fetch_or_cache path params csv api uc st).state = st := by
  have hcond : (uc && (st.lookup csv).isSome) = false := by
    rcases hmiss with h | h <;> simp [h]
  simp [fetch_or_cache, hcond, herr]

/-- C6 witness: a failing request on an empty cache directory. -/
theorem c6_witness :
    (fetch_or_cache "/records" [("year", Value.int 2021)] "team_records_2021.csv"
        c6wapi true []).result = .error "HTTPError: 500"
    ∧ (fetch_or_cache "/records" [("year", Value.int 2021)] "team_records_2021.csv"
        c6wapi true []).state = [] :=
  c6_error_propagation "/records" [("year", Value.int 2021)] "team_records_2021.csv"
    c6wapi true [] "HTTPError: 500" (Or.inr rfl) rfl

/-- C7: with caching disabled a fetch performs a network request even though
the cache file exists, and overwrites that file with the freshly fetched table
before returning it. -/
theorem c7_cache_bypass (path : String) (params : List (String × Value))
    (csv : String) (api : Api) (st : CacheState) (data : List Row) (told : DataFrame)
    (_hexists : st.lookup csv = some told)
    (hok : api path params = .ok data) :
    fetch_or_cache path params csv api false st
      = ⟨.ok (json_normalize data), writeCsv st csv (json_normalize data), 1⟩
    ∧ (writeCsv st csv (json_normalize data)).lookup csv = some (json_normalize data) := by
  constructor
  · simp [fetch_or_cache, hok]
  · exact writeCsv_lookup st csv (json_normalize data)

/-! Multi-year loader lemmas. -/

theorem pyRange_empty (start_year end_year : Int) (h : end_year < start_year) :
    pyRange start_year end_year = [] := by
  unfold pyRange
  rw [Int.toNat_of_nonpos (by omega)]
  rfl

/-- When the single-year fetch deterministically returns f y for year y, the
accumulation loop collects exactly the tagged tables of the non-empty years,
and warns about exactly the empty ones, in ascending year order. -/
theorem multi_go_spec (single : Int → Bool → CacheState → FetchOut)
    (tag : DataFrame → Int → DataFrame) (uc : Bool) (f : Int → DataFrame)
    (H : ∀ y st, (single y uc st).result = .ok (f y)) :
    ∀ (years : List Int) (st : CacheState),
      (multi_go single tag uc years st).result =
        .ok (years.filterMap (fun y => if (f y).isEmpty then none else some (tag (f y) y)))
      ∧ (multi_go single tag uc years st).warnings =
        years.filter (fun y => (f y).isEmpty) := by
  intro years
  induction years with
  | nil => intro st; exact ⟨rfl, rfl⟩
  | cons y ys ih =>
    intro st
    obtain ⟨ih1, ih2⟩ := ih ((single y uc st).state)
    by_cases he : (f y).isEmpty
    · constructor
      · simp only [multi_go, H y st]
        simp [he, ih1, List.filterMap_cons, Except.map]
      · simp only [multi_go, H y st]
        simp [he, ih2, List.filter_cons]
    · constructor
      · simp only [multi_go, H y st]
        simp [he, ih1, List.filterMap_cons, Except.map]
      · simp only [multi_go, H y st]
        simp [he, ih2, List.filter_cons]

/-- The full multi-year loader under a deterministic single-year fetch. -/
theorem finish_multi_spec (single : Int → Bool → CacheState → FetchOut)
    (tag : DataFrame → Int → DataFrame) (uc : Bool) (f : Int → DataFrame)
    (H : ∀ y st, (single y uc st).result = .ok (f y))
    (years : List Int) (st : CacheState) :
    (finish_multi (multi_go single tag uc years st)).result = .ok (mk_aggregate years f tag)
    ∧ (finish_multi (multi_go single tag uc years st)).warnings =
        years.filter (fun y => (f y).isEmpty) := by
  obtain ⟨h1, h2⟩ := multi_go_spec single tag uc f H years st
  refine ⟨?_, ?_⟩
  · simp only [finish_multi, h1]
    rfl
  · simpa [finish_multi] using h2

theorem filterMap_if {α β : Type} (p : α → Bool) (g : α → β) (l : List α) :
    (l.filterMap (fun y => if p y then none else some (g y)))
      = (l.filter (fun y => !p y)).map g := by
  induction l with
  | nil => rfl
  | cons a l ih =>
    by_cases h : p a <;> simp [h, ih, List.filterMap_cons, List.filter_cons]

/-- The rows of a multi-year aggregate: the tagged rows of the non-empty
years, concatenated in order. -/
theorem mk_aggregate_rows (years : List Int) (f : Int → DataFrame)
    (tag : DataFrame → Int → DataFrame) :
    (mk_aggregate years f tag).rows =
      ((years.filter (fun y => !(f y).isEmpty)).map (fun y => (tag (f y) y).rows)).flatten := by
  unfold mk_aggregate
  rw [filterMap_if (fun y => (f y).isEmpty) (fun y => tag (f y) y) years]
  split
  · rename_i h
    rw [List.isEmpty_iff] at h
    have h2 : years.filter (fun y => !(f y).isEmpty) = [] := List.map_eq_nil_iff.mp h
    simp [DataFrame.empty, h2]
  · simp [pd_concat, List.map_map, Function.comp_def]

theorem mk_aggregate_length (years : List Int) (f : Int → DataFrame)
    (tag : DataFrame → Int → DataFrame)
    (htag : ∀ df y, (tag df y).rows.length = df.rows.length) :
    (mk_aggregate years f tag).rows.length =
      ((years.filter (fun y => !(f y).isEmpty)).map (fun y => (f y).rows.length)).sum := by
  rw [mk_aggregate_rows, List.length_flatten, List.map_map]
  congr 1
  apply List.map_congr_left
  intro y _
  exact htag (f y) y

theorem transfer_tag_length (df : DataFrame) (y : Int) :
    (transfer_tag df y).rows.length = df.rows.length := by
  simp [transfer_tag, DataFrame.setCol]

theorem player_stats_tag_length (df : DataFrame) (y : Int) :
    (player_stats_tag df y).rows.length = df.rows.length := by
  unfold player_stats_tag
  split
  · rfl
  · simp [DataFrame.setCol]

theorem sp_tag_length (df : DataFrame) (y : Int) :
    (sp_tag df y).rows.length = df.rows.length := rfl

/-- C1 counterexample: when a year's SP+ body has no "year" field,
load_sp_plus_multi returns rows with no "year" column at all (so the year
column does not equal the fetch year 2021); and when a portal body already
carries "year" = 1999, load_transfer_portal_multi overwrites it with the loop
year 2021 instead of leaving it as-is. -/
theorem c1_counterexample :
    ((load_sp_plus_multi c1xapi 2021 2021 false []).result.map
        (fun df => df.rows.map (fun r => r.lookup "year"))) = .ok [none]
    ∧ ((load_transfer_portal_multi c1xapi 2021 2021 false []).result.map
        (fun df => df.rows.map (fun r => r.lookup "year"))) = .ok [some (Value.int 2021)]
    ∧ some (Value.int 2021) ≠ some (Value.int 1999) :=
  ⟨rfl, rfl, by decide⟩

/-- C1 (amended): when the single-year fetch of year y deterministically
returns the table ft y (resp. fp y, fs y), each multi-year loader aggregates
the non-empty years with its own year-tagging rule:
load_transfer_portal_multi always assigns the "year" column from the loop
variable, overwriting any fetched value, so its rows' year always equals the
fetch year; load_player_season_stats_multi assigns it from the loop variable
only when the fetched table has no "year" column and otherwise leaves the
table as-is; load_sp_plus_multi performs no year tagging at all. -/
theorem c1_year_tagging_amended (api : Api) (uc : Bool) (ft fp fs : Int → DataFrame)
    (Ht : ∀ y st, (load_transfer_portal api y uc st).result = .ok (ft y))
    (Hp : ∀ y st, (load_player_season_stats api y uc st).result = .ok (fp y))
    (Hs : ∀ y st, (load_sp_plus_ratings api y uc st).result = .ok (fs y))
    (start_year end_year : Int) (st : CacheState) :
    (load_transfer_portal_multi api start_year end_year uc st).result
      = .ok (mk_aggregate (pyRange start_year end_year) ft transfer_tag)
    ∧ (load_player_season_stats_multi api start_year end_year uc st).result
      = .ok (mk_aggregate (pyRange start_year end_year) fp player_stats_tag)
    ∧ (load_sp_plus_multi api start_year end_year uc st).result
      = .ok (mk_aggregate (pyRange start_year end_year) fs sp_tag)
    ∧ (∀ df y, ∀ r ∈ (transfer_tag df y).rows, r.lookup "year" = some (Value.int y))
    ∧ (∀ df y, "year" ∉ df.cols →
        ∀ r ∈ (player_stats_tag df y).rows, r.lookup "year" = some (Value.int y))
    ∧ (∀ df y, "year" ∈ df.cols → player_stats_tag df y = df)
    ∧ (∀ df y, sp_tag df y = df) := by
  refine ⟨?_, ?_, ?_, ?_, ?_, ?_, ?_⟩
  · exact (finish_multi_spec (load_transfer_portal api) transfer_tag uc ft Ht
      (pyRange start_year end_year) st).1
  · exact (finish_multi_spec (load_player_season_stats api) player_stats_tag uc fp Hp
      (pyRange start_year end_year) st).1
  · exact (finish_multi_spec (load_sp_plus_ratings api) sp_tag uc fs Hs
      (pyRange start_year end_year) st).1
  · intro df y r hr
    simp only [transfer_tag, DataFrame.setCol, List.mem_map] at hr
    obtain ⟨r0, _, hr0⟩ := hr
    rw [← hr0]
    exact setCell_lookup_self r0 "year" (Value.int y)
  · intro df y hy r hr
    simp only [player_stats_tag, if_neg hy, DataFrame.setCol, List.mem_map] at hr
    obtain ⟨r0, _, hr0⟩ := hr
    rw [← hr0]
    exact setCell_lookup_self r0 "year" (Value.int y)
  · intro df y hy
    simp [player_stats_tag, hy]
  · intro df y
    rfl

/-- C1 witness: the transfer-portal aggregation equation at a concrete server,
range 2020-2021, caching disabled, empty cache. -/
theorem c1_witness :
    (load_transfer_portal_multi c1wapi 2020 2021 false []).result
      = .ok (mk_aggregate (pyRange 2020 2021) c1wft transfer_tag) :=
  (c1_year_tagging_amended c1wapi false c1wft c1wfp c1wfs
    (fun _ _ => rfl) (fun _ _ => rfl) (fun _ _ => rfl) 2020 2021 []).1

/-- C4: when the single-year fetch of year y deterministically returns f y,
every multi-year aggregate keeps, in order, exactly the rows of the non-empty
years (tagged by the loader's rule), its row count is the sum of the non-empty
years' row counts, and a warning names each skipped (empty) year. -/
theorem c4_empty_year_skip (api : Api) (uc : Bool) (ft fp fs : Int → DataFrame)
    (Ht : ∀ y st, (load_transfer_portal api y uc st).result = .ok (ft y))
    (Hp : ∀ y st, (load_player_season_stats api y uc st).result = .ok (fp y))
    (Hs : ∀ y st, (load_sp_plus_ratings api y uc st).result = .ok (fs y))
    (start_year end_year : Int) (st : CacheState) :
    ((load_player_season_stats_multi api start_year end_year uc st).result
        = .ok (mk_aggregate (pyRange start_year end_year) fp player_stats_tag)
      ∧ (mk_aggregate (pyRange start_year end_year) fp player_stats_tag).rows
        = (((pyRange start_year end_year).filter (fun y => !(fp y).isEmpty)).map
            (fun y => (player_stats_tag (fp y) y).rows)).flatten
      ∧ (mk_aggregate (pyRange start_year end_year) fp player_stats_tag).rows.length
        = (((pyRange start_year end_year).filter (fun y => !(fp y).isEmpty)).map
            (fun y => (fp y).rows.length)).sum
      ∧ (load_player_season_stats_multi api start_year end_year uc st).warnings
        = (pyRange start_year end_year).filter (fun y => (fp y).isEmpty))
    ∧ ((load_transfer_portal_multi api start_year end_year uc st).result
        = .ok (mk_aggregate (pyRange start_year end_year) ft transfer_tag)
      ∧ (mk_aggregate (pyRange start_year end_year) ft transfer_tag).rows.length
        = (((pyRange start_year end_year).filter (fun y => !(ft y).isEmpty)).map
            (fun y => (ft y).rows.length)).sum
      ∧ (load_transfer_portal_multi api start_year end_year uc st).warnings
        = (pyRange start_year end_year).filter (fun y => (ft y).isEmpty))
    ∧ ((load_sp_plus_multi api start_year end_year uc st).result
        = .ok (mk_aggregate (pyRange start_year end_year) fs sp_tag)
      ∧ (mk_aggregate (pyRange start_year end_year) fs sp_tag).rows.length
        = (((pyRange start_year end_year).filter (fun y => !(fs y).isEmpty)).map
            (fun y => (fs y).rows.length)).sum
      ∧ (load_sp_plus_multi api start_year end_year uc st).warnings
        = (pyRange start_year end_year).filter (fun y => (fs y).isEmpty)) := by
  obtain ⟨hp1, hp2⟩ := finish_multi_spec (load_player_season_stats api) player_stats_tag uc fp Hp
    (pyRange start_year end_year) st
  obtain ⟨ht1, ht2⟩ := finish_multi_spec (load_transfer_portal api) transfer_tag uc ft Ht
    (pyRange start_year end_year) st
  obtain ⟨hs1, hs2⟩ := finish_multi_spec (load_sp_plus_ratings api) sp_tag uc fs Hs
    (pyRange start_year end_year) st
  exact ⟨⟨hp1, mk_aggregate_rows _ _ _,
          mk_aggregate_length _ _ _ player_stats_tag_length, hp2⟩,
         ⟨ht1, mk_aggregate_length _ _ _ transfer_tag_length, ht2⟩,
         ⟨hs1, mk_aggregate_length _ _ _ sp_tag_length, hs2⟩⟩

/-- C4 witness: with 2020 empty in a 2019-2021 range, the aggregate's row
count is the sum over the two non-empty years and 2020 is warned about. -/
theorem c4_witness :
    (load_player_season_stats_multi c4wapi 2019 2021 false []).warnings
      = (pyRange 2019 2021).filter (fun y => (c4wf y).isEmpty)
    ∧ (pyRange 2019 2021).filter (fun y => (c4wf y).isEmpty) = [2020]
    ∧ (mk_aggregate (pyRange 2019 2021) c4wf player_stats_tag).rows.length
      = (((pyRange 2019 2021).filter (fun y => !(c4wf y).isEmpty)).map
          (fun y => (c4wf y).rows.length)).sum
    ∧ (((pyRange 2019 2021).filter (fun y => !(c4wf y).isEmpty)).map
          (fun y => (c4wf y).rows.length)).sum = 2 := by
  have hdet : ∀ y st, (load_player_season_stats c4wapi y false st).result = .ok (c4wf y) := by
    intro y st
    by_cases hy : y = 2020
    · subst hy; rfl
    · simp [load_player_season_stats, fetch_or_cache, c4wapi, c4wf, hy]
  have h := c4_empty_year_skip c4wapi false c4wf c4wf c4wf
    (by intro y st; by_cases hy : y = 2020
        · subst hy; rfl
        · simp [load_transfer_portal, fetch_or_cache, c4wapi, c4wf, hy])
    hdet
    (by intro y st; by_cases hy : y = 2020
        · subst hy; rfl
        · simp [load_sp_plus_ratings, fetch_or_cache, c4wapi, c4wf, hy])
    2019 2021 []
  exact ⟨h.1.2.2.2, by rfl, h.1.2.2.1, by rfl⟩

/-- C5: when every year's fetch in the range deterministically returns an
empty table, each multi-year loader returns pd.DataFrame() — zero rows, no
columns — and no error. -/
theorem c5_full_empty_range (api : Api) (uc : Bool) (ft fp fs : Int → DataFrame)
    (Ht : ∀ y st, (load_transfer_portal api y uc st).result = .ok (ft y))
    (Hp : ∀ y st, (load_player_season_stats api y uc st).result = .ok (fp y))
    (Hs : ∀ y st, (load_sp_plus_ratings api y uc st).result = .ok (fs y))
    (start_year end_year : Int) (st : CacheState)
    (het : ∀ y ∈ pyRange start_year end_year, (ft y).isEmpty)
    (hep : ∀ y ∈ pyRange start_year end_year, (fp y).isEmpty)
    (hes : ∀ y ∈ pyRange start_year end_year, (fs y).isEmpty) :
    (load_transfer_portal_multi api start_year end_year uc st).result = .ok DataFrame.empty
    ∧ (load_player_season_stats_multi api start_year end_year uc st).result
        = .ok DataFrame.empty
    ∧ (load_sp_plus_multi api start_year end_year uc st).result = .ok DataFrame.empty
    ∧ DataFrame.empty.rows = [] ∧ DataFrame.empty.cols = [] := by
  have hnil : ∀ (f : Int → DataFrame) (tag : DataFrame → Int → DataFrame),
      (∀ y ∈ pyRange start_year end_year, (f y).isEmpty) →
      mk_aggregate (pyRange start_year end_year) f tag = DataFrame.empty := by
    intro f tag hf
    have hfm : ∀ (l : List Int), (∀ y ∈ l, (f y).isEmpty) →
        l.filterMap (fun y => if (f y).isEmpty then none else some (tag (f y) y)) = [] := by
      intro l
      induction l with
      | nil => intro _; rfl
      | cons a l ih =>
        intro hl
        rw [List.filterMap_cons, if_pos (hl a (List.mem_cons_self a l))]
        exact ih (fun y hy => hl y (List.mem_cons_of_mem a hy))
    simp [mk_aggregate, hfm (pyRange start_year end_year) hf]
  refine ⟨?_, ?_, ?_, rfl, rfl⟩
  · unfold load_transfer_portal_multi
    rw [(finish_multi_spec (load_transfer_portal api) transfer_tag uc ft Ht
      (pyRange start_year end_year) st).1, hnil ft transfer_tag het]
  · unfold load_player_season_stats_multi
    rw [(finish_multi_spec (load_player_season_stats api) player_stats_tag uc fp Hp
      (pyRange start_year end_year) st).1, hnil fp player_stats_tag hep]
  · unfold load_sp_plus_multi
    rw [(finish_multi_spec (load_sp_plus_ratings api) sp_tag uc fs Hs
      (pyRange start_year end_year) st).1, hnil fs sp_tag hes]

/-- C5 witness: a server answering every year with an empty array over
2020-2021 yields pd.DataFrame() from the player-stats aggregator. -/
theorem c5_witness :
    (load_player_season_stats_multi c5wapi 2020 2021 false []).result
      = .ok DataFrame.empty :=
  (c5_full_empty_range c5wapi false c5wf c5wf c5wf
    (fun _ _ => rfl) (fun _ _ => rfl) (fun _ _ => rfl) 2020 2021 []
    (fun _ _ => rfl) (fun _ _ => rfl) (fun _ _ => rfl)).2.1

/-- C10: an inverted range (start_year greater than end_year) makes every
multi-year loader perform no single-year fetch at all: no network request, an
untouched cache, no warning, and pd.DataFrame() as the result. -/
theorem c10_inverted_range (api : Api) (start_year end_year : Int) (uc : Bool)
    (st : CacheState) (h : end_year < start_year) :
    load_transfer_portal_multi api start_year end_year uc st = ⟨.ok DataFrame.empty, st, 0, []⟩
    ∧ load_player_season_stats_multi api start_year end_year uc st
        = ⟨.ok DataFrame.empty, st, 0, []⟩
    ∧ load_sp_plus_multi api start_year end_year uc st = ⟨.ok DataFrame.empty, st, 0, []⟩ := by
  have hr := pyRange_empty start_year end_year h
  refine ⟨?_, ?_, ?_⟩ <;>
    simp [load_transfer_portal_multi, load_player_season_stats_multi, load_sp_plus_multi,
      hr, multi_go, finish_multi, DataFrame.empty, Except.map]

/-- C10 witness: the inverted range 3..1. -/
theorem c10_witness :
    load_transfer_portal_multi c5wapi 3 1 true [] = ⟨.ok DataFrame.empty, [], 0, []⟩ :=
  (c10_inverted_range c5wapi 3 1 true [] (by decide)).1

/-! attach_player_ids lemmas. -/

theorem lookup_iterRow (cols : List String) (r : Row) (k : String) :
    (iterRow cols r).lookup k =
      if k ∈ cols then some ((r.lookup k).getD .null) else none := by
  induction cols with
  | nil => rfl
  | cons c cs ih =>
    by_cases hk : k = c
    · subst hk
      simp [iterRow, List.lookup_cons]
    · simp only [iterRow, List.map_cons, List.lookup_cons, beq_false_of_ne hk] at ih ⊢
      rw [ih]
      simp [List.mem_cons, hk]

theorem rowCols_iterRow (cols : List String) (r : Row) :
    rowCols (iterRow cols r) = cols := by
  simp [rowCols, iterRow, List.map_map, Function.comp_def]

/-- The per-row body, fully reduced under the conditions of RowOk: it stores
exactly pickValue of the search result and of str(row.origin).lower(). -/
theorem attach_row_spec (api : Api) (row : Row) (s : List Row) (fv lv : Value)
    (hf : row.lookup "firstName" = some fv)
    (hl : row.lookup "lastName" = some lv)
    (hapi : api "/player/search" [("search", .str (pyStr fv ++ " " ++ pyStr lv))] = .ok s)
    (hrest : ¬s.isEmpty → ∃ ov, row.lookup "origin" = some ov
        ∧ "id" ∈ (json_normalize s).cols
        ∧ (pyLower (pyStr ov) ≠ "nan" → "team" ∈ (json_normalize s).cols)) :
    attach_row api row = .ok (setCell row "playerId" (pickValue s (originLowerFromRow row))) := by
  unfold attach_row
  simp only [hf, hl, hapi]
  by_cases hs : s.isEmpty
  · simp [hs, pickValue]
  · have hs' : s.isEmpty = false := by simpa using hs
    obtain ⟨ov, ho, hid, hteam⟩ := hrest hs
    have hol : originLowerFromRow row = pyLower (pyStr ov) := by
      simp [originLowerFromRow, ho]
    rw [hol]
    simp only [hs', Bool.false_eq_true, if_false, ho, pickValue]
    by_cases hnan : pyLower (pyStr ov) = "nan"
    · rw [if_neg (fun h => h hnan), if_neg (fun h => h hnan)]
      cases s with
      | nil => simp at hs'
      | cons c cs =>
        have hrows : (json_normalize (c :: cs)).rows = c :: cs := rfl
        simp only [first_fallback, hrows]
        rw [if_pos hid]
        simp [idOfFirst, hrows]
    · rw [if_pos hnan, if_pos hnan, if_pos (hteam hnan)]
      cases hfil : (json_normalize s).rows.filter (fun c => teamLowerEq c (pyLower (pyStr ov))) with
      | nil =>
        simp only [hfil]
        cases s with
        | nil => simp at hs'
        | cons c cs =>
          have hrows : (json_normalize (c :: cs)).rows = c :: cs := rfl
          simp only [first_fallback, hrows]
          rw [if_pos hid]
          simp [idOfFirst, hrows]
      | cons c cs =>
        simp only [hfil]
        rw [if_pos hid]

/-- The whole loop, when every row satisfies RowOk: the input frame comes out
untouched and the results are the per-row extensions, in input order. -/
theorem attach_loop_spec (api : Api) (cols : List String) (rows : List Row) (frame : DataFrame)
    (H : ∀ r ∈ rows, RowOk api cols r) :
    attach_loop api cols rows frame =
      (.ok (rows.map (fun r => setCell (iterRow cols r) "playerId" (pickRow api cols r))),
       frame) := by
  induction rows with
  | nil => rfl
  | cons r rs ih =>
    obtain ⟨fv, lv, s, hfv, hlv, hapi, hrest⟩ := H r (List.mem_cons_self r rs)
    have hname : nameFromRow (iterRow cols r) = pyStr fv ++ " " ++ pyStr lv := by
      simp [nameFromRow, hfv, hlv]
    have hpick : pickRow api cols r = pickValue s (originLowerFromRow (iterRow cols r)) := by
      rw [pickRow, hname, hapi]
    have harow := attach_row_spec api (iterRow cols r) s fv lv hfv hlv hapi hrest
    simp only [attach_loop, harow, ih (fun x hx => H x (List.mem_cons_of_mem r hx)),
      List.map_cons, hpick]

/-- C3 counterexample: with origin the non-null string "NaN" and a search
result whose second candidate's team is "NaN" (a case-insensitive match with
id 101), the code treats the origin as missing and attaches the first
candidate's id 202, not the 101 the claim's rule selects. -/
theorem c3_counterexample :
    (attach_player_ids c3xapi c3xdf).map (fun d => d.rows.map (fun r => r.lookup "playerId"))
      = .ok [some (Value.int 202)]
    ∧ claim_pick (some "NaN") c3xcands = Value.int 101
    ∧ Value.int 202 ≠ Value.int 101 :=
  ⟨rfl, rfl, by decide⟩

/-- C3 (amended): when every row is processable, attach_player_ids returns the
per-row extension with pickValue, whose selection rule is: a row whose
str(origin).lower() is not the string "nan" takes the first candidate whose
team matches origin case-insensitively, falling back to the first candidate
overall; a row whose str(origin).lower() is "nan" — a true missing origin, or
any origin string spelling "nan" — takes the first candidate overall. -/
theorem c3_origin_matching_amended (api : Api) (df : DataFrame)
    (H : ∀ r ∈ df.rows, RowOk api df.cols r) :
    attach_player_ids api df = .ok (attachResult api df)
    ∧ (∀ s ol c cs, s.isEmpty = false → ol ≠ "nan" →
        (json_normalize s).rows.filter (fun cand => teamLowerEq cand ol) = c :: cs →
        pickValue s ol = (c.lookup "id").getD Value.null)
    ∧ (∀ s ol, s.isEmpty = false → ol ≠ "nan" →
        (json_normalize s).rows.filter (fun cand => teamLowerEq cand ol) = [] →
        pickValue s ol = idOfFirst (json_normalize s))
    ∧ (∀ s ol, s.isEmpty = false → ol = "nan" →
        pickValue s ol = idOfFirst (json_normalize s)) := by
  refine ⟨?_, ?_, ?_, ?_⟩
  · unfold attach_player_ids attach_player_ids_run
    rw [attach_loop_spec api df.cols df.rows df H]
    rfl
  · intro s ol c cs hs hol hfil
    simp only [pickValue, hs, Bool.false_eq_true, if_false, if_pos hol, hfil]
  · intro s ol hs hol hfil
    simp only [pickValue, hs, Bool.false_eq_true, if_false, if_pos hol, hfil]
  · intro s ol hs hol
    simp only [pickValue, hs, Bool.false_eq_true, if_false]
    rw [if_neg (fun h => h hol)]

/-- C3 witness: the spec's origin-matching scenario with the matching
candidate second: Jane Doe from "Acme State" gets id 101, the first candidate
whose team matches case-insensitively, not the first candidate overall. -/
theorem c3_witness :
    attach_player_ids c3wapi c3wdf = .ok (attachResult c3wapi c3wdf)
    ∧ (attachResult c3wapi c3wdf).rows.map (fun r => r.lookup "playerId")
      = [some (Value.int 101)] := by
  have H : ∀ r ∈ c3wdf.rows, RowOk c3wapi c3wdf.cols r := by
    intro r hr
    simp only [c3wdf, List.mem_singleton] at hr
    subst hr
    exact ⟨Value.str "Jane", Value.str "Doe", c3wcands, rfl, rfl, rfl,
      fun _ => ⟨Value.str "Acme State", rfl, by decide, fun _ => by decide⟩⟩
  exact ⟨(c3_origin_matching_amended c3wapi c3wdf H).1, rfl⟩

theorem foldl_insertCol_of_mem (K : List String) :
    ∀ acc, (∀ k ∈ K, k ∈ acc) → K.foldl insertCol acc = acc := by
  induction K with
  | nil => intro acc _; rfl
  | cons c cs ih =>
    intro acc hacc
    rw [List.foldl_cons, insertCol, if_pos (hacc c (List.mem_cons_self c cs))]
    exact ih acc (fun k hk => hacc k (List.mem_cons_of_mem c hk))

theorem foldl_insertCol_of_disjoint (K : List String) :
    ∀ acc, K.Nodup → (∀ k ∈ K, k ∉ acc) → K.foldl insertCol acc = acc ++ K := by
  induction K with
  | nil => intro acc _ _; simp
  | cons c cs ih =>
    intro acc hnd hacc
    rw [List.foldl_cons, insertCol, if_neg (hacc c (List.mem_cons_self c cs))]
    rw [ih (acc ++ [c]) (List.Nodup.of_cons hnd)]
    · simp
    · intro k hk
      simp only [List.mem_append, List.mem_singleton]
      rintro (h | h)
      · exact hacc k (List.mem_cons_of_mem c hk) h
      · subst h
        exact (List.nodup_cons.mp hnd).1 hk

/-- When every row carries exactly the same duplicate-free key list K, the
column union of a non-empty row list is K. -/
theorem unionCols_const (K : List String) (hK : K.Nodup) (rows : List Row)
    (hrows : ∀ r ∈ rows, rowCols r = K) (hne : rows ≠ []) :
    unionCols rows = K := by
  cases rows with
  | nil => exact absurd rfl hne
  | cons r0 rest =>
    unfold unionCols
    rw [List.foldl_cons, hrows r0 (List.mem_cons_self r0 rest)]
    rw [foldl_insertCol_of_disjoint K [] hK (fun k _ hk => (List.not_mem_nil k) hk)]
    simp only [List.nil_append]
    have hrest : ∀ (l : List Row), (∀ r ∈ l, rowCols r = K) →
        l.foldl (fun acc r => (rowCols r).foldl insertCol acc) K = K := by
      intro l
      induction l with
      | nil => intro _; rfl
      | cons a as ih2 =>
        intro hl
        rw [List.foldl_cons, hl a (List.mem_cons_self a as),
          foldl_insertCol_of_mem K K (fun k hk => hk)]
        exact ih2 (fun r hr => hl r (List.mem_cons_of_mem a hr))
    exact hrest rest (fun r hr => hrows r (List.mem_cons_of_mem r0 hr))

theorem rowCols_setCell_new (r : Row) (k : String) (v : Value)
    (h : r.lookup k = none) :
    rowCols (setCell r k v) = rowCols r ++ [k] := by
  unfold setCell
  rw [h]
  simp [rowCols]

/-- C8: when every row is processable, attach_player_ids raises nothing — in
particular not on a row whose search returned an empty list — and returns a
new table whose rows are the input rows in order, each with every original
column plus a playerId column; a row whose search came back empty has a null
playerId. -/
theorem c8_empty_search_null (api : Api) (df : DataFrame)
    (H : ∀ r ∈ df.rows, RowOk api df.cols r)
    (hnodup : df.cols.Nodup) (hpid : "playerId" ∉ df.cols) (hne : df.rows ≠ []) :
    attach_player_ids api df = .ok (attachResult api df)
    ∧ (attachResult api df).rows
        = df.rows.map (fun r => setCell (iterRow df.cols r) "playerId" (pickRow api df.cols r))
    ∧ (attachResult api df).rows.length = df.rows.length
    ∧ (attachResult api df).cols = df.cols ++ ["playerId"]
    ∧ (∀ r ∈ df.rows,
        api "/player/search" [("search", Value.str (nameFromRow (iterRow df.cols r)))] = .ok [] →
        (setCell (iterRow df.cols r) "playerId" (pickRow api df.cols r)).lookup "playerId"
          = some Value.null) := by
  refine ⟨?_, rfl, by simp [attachResult, pd_DataFrame_ofRows], ?_, ?_⟩
  · unfold attach_player_ids attach_player_ids_run
    rw [attach_loop_spec api df.cols df.rows df H]
    rfl
  · have hKnd : (df.cols ++ ["playerId"]).Nodup := by
      rw [List.nodup_append]
      refine ⟨hnodup, List.nodup_singleton _, ?_⟩
      intro a ha hb
      rw [List.mem_singleton] at hb
      subst hb
      exact hpid ha
    apply unionCols_const (df.cols ++ ["playerId"]) hKnd
    · intro r hr
      simp only [attachResult, pd_DataFrame_ofRows, List.mem_map] at hr
      obtain ⟨r0, _, hr0⟩ := hr
      rw [← hr0, rowCols_setCell_new, rowCols_iterRow]
      rw [lookup_iterRow]
      exact if_neg hpid
    · intro hmap
      exact hne (List.map_eq_nil_iff.mp hmap)
  · intro r _ hempty
    have hp : pickRow api df.cols r = Value.null := by
      rw [pickRow, hempty]
      rfl
    rw [hp]
    exact setCell_lookup_self (iterRow df.cols r) "playerId" Value.null

/-- C8 witness: one row whose search finds nobody. -/
theorem c8_witness :
    attach_player_ids c8wapi c8wdf = .ok (attachResult c8wapi c8wdf)
    ∧ (attachResult c8wapi c8wdf).cols = c8wdf.cols ++ ["playerId"]
    ∧ (attachResult c8wapi c8wdf).rows.map (fun r => r.lookup "playerId")
      = [some Value.null] := by
  have H : ∀ r ∈ c8wdf.rows, RowOk c8wapi c8wdf.cols r := by
    intro r hr
    simp only [c8wdf, List.mem_singleton] at hr
    subst hr
    exact ⟨Value.str "Jane", Value.str "Doe", [], rfl, rfl, rfl, fun h => absurd rfl h⟩
  have h := c8_empty_search_null c8wapi c8wdf H (by decide) (by decide) (by decide)
  exact ⟨h.1, h.2.2.2.1, rfl⟩

/-- C9: attach_player_ids never modifies its input table — iterrows hands the
loop a copy of each row and nothing writes into df_transfers, so the frame
after the call is the frame that was passed in, whether the call succeeded or
raised. -/
theorem c9_input_unmodified (api : Api) (df : DataFrame) :
    (attach_player_ids_run api df).2 = df := by
  have hloop : ∀ (rows : List Row) (frame : DataFrame),
      (attach_loop api df.cols rows frame).2 = frame := by
    intro rows
    induction rows with
    | nil => intro frame; rfl
    | cons r rs ih =>
      intro frame
      simp only [attach_loop]
      cases attach_row api (iterRow df.cols r) with
      | error e => rfl
      | ok r1 =>
        have h2 := ih frame
        cases h : attach_loop api df.cols rs frame with
        | mk res fr =>
          rw [h] at h2
          cases res <;> simpa using h2
  unfold attach_player_ids_run
  have h2 := hloop df.rows df
  cases h : attach_loop api df.cols df.rows df with
  | mk res fr =>
    rw [h] at h2
    cases res <;> simpa using h2

/-- C7 witness: a stale cached table is overwritten by the fetched one. -/
theorem c7_witness :
    fetch_or_cache "/q" [] "g.csv" c7wapi false c7wst
      = ⟨.ok (json_normalize [[("b", Value.int 7)]]),
         writeCsv c7wst "g.csv" (json_normalize [[("b", Value.int 7)]]), 1⟩ :=
  (c7_cache_bypass "/q" [] "g.csv" c7wapi c7wst [[("b", Value.int 7)]]
    (json_normalize [[("b", Value.int 6)]]) rfl rfl).1

end Cfb
